import Mathlib

/-!
Verification of the serving-side scheduler core of the `max` repository:
worker-process startup and supervision (`src/max/serve/pipelines/model_worker.py`),
the streaming pipeline and its batching configuration (`src/max/serve/pipelines/llm.py`),
and the `masked_scatter` graph op (`max/graph/ops/scatter.py`).
Python functions are embedded shallowly: each relevant function becomes a Lean
function over an explicit model of the state it touches, fallible code returns
`Except`, and control flow is translated branch by branch from the source.
-/

namespace MaxServe

/- ----------------------------------------------------------------
   `start_model_worker` (model_worker.py, lines 129-175).
   After racing `monitor.until_healthy()` against `monitor.until_dead()`
   with `timeout = config.timeout_secs * 2`, the code inspects four facts:
   whether the healthy task finished (`ht.done()`), whether the dead task
   finished (`dt.done()`), `worker.is_alive()`, and `pc.is_healthy()`,
   and either yields the engine queue or raises one of four
   `TimeoutError`s.  `StartupOutcome` has one constructor per exit,
   named after the raised message.
   ---------------------------------------------------------------- -/

inductive StartupOutcome where
  /-- the `yield engine_queue` path -/
  | success
  /-- `TimeoutError("Worker is neither dead nor healthy")` -/
  | neitherDeadNorHealthy
  /-- `TimeoutError("Worker became healthy and died")` -/
  | becameHealthyAndDied
  /-- `TimeoutError("Worker died")` -/
  | died
  /-- `TimeoutError("Worker did not become healthy")` -/
  | didNotBecomeHealthy
  deriving DecidableEq, Repr

structure StartupResult where
  outcome : StartupOutcome
  /-- whether `await monitor.shutdown()` ran before the raise -/
  monitorShutdown : Bool
  deriving DecidableEq, Repr

/-- The decision structure of `start_model_worker` after the
`asyncio.wait([ht, dt], timeout=config.timeout_secs * 2, ...)` call:
`htDone`/`dtDone` say whether the became-healthy / became-dead waits
resolved within `2 * timeout_secs`; `workerAlive` is `worker.is_alive()`
and `pcHealthy` is `pc.is_healthy()` at the subsequent checks. -/
def start_model_worker_decide (htDone dtDone workerAlive pcHealthy : Bool) :
    StartupResult :=
  if !htDone && !dtDone then
    { outcome := .neitherDeadNorHealthy, monitorShutdown := false }
  else if !workerAlive then
    if pcHealthy then
      { outcome := .becameHealthyAndDied, monitorShutdown := true }
    else
      { outcome := .died, monitorShutdown := true }
  else if !pcHealthy then
    { outcome := .didNotBecomeHealthy, monitorShutdown := true }
  else
    { outcome := .success, monitorShutdown := false }

/- ----------------------------------------------------------------
   `TokenGeneratorPipeline.log_task_done` (llm.py, lines 279-299).
   The done-callback of every background task: removes the finished
   task from `_background_tasks`, cancels every remaining not-done
   task, then — unless the task exited by cancellation — checks
   `task.exception()` and sends SIGTERM to its own process when an
   exception is present.
   ---------------------------------------------------------------- -/

structure BgTask where
  done : Bool
  cancelRequested : Bool
  deriving DecidableEq, Repr

/-- How the finished task exited: `task.cancelled()`, `task.exception()`
returning an exception, or a clean return. -/
inductive TaskExit where
  | cancelled
  | errored (msg : String)
  | clean
  deriving DecidableEq, Repr

structure TaskDoneEffect where
  /-- the surviving `_background_tasks`, after cancellation requests -/
  siblings : List BgTask
  /-- whether `os.kill(os.getpid(), signal.SIGTERM)` was issued -/
  sigtermIssued : Bool
  deriving DecidableEq, Repr

/-- `log_task_done`, applied to the set of sibling tasks that remain after
the finished task was removed, and to the way the finished task exited. -/
def log_task_done (siblings : List BgTask) (e : TaskExit) : TaskDoneEffect :=
  let siblings' := siblings.map fun t =>
    if t.done then t else { t with cancelRequested := true }
  match e with
  | .cancelled => { siblings := siblings', sigtermIssued := false }
  | .errored _ => { siblings := siblings', sigtermIssued := true }
  | .clean => { siblings := siblings', sigtermIssued := false }

/- ----------------------------------------------------------------
   `_model_worker_process_fn` (model_worker.py, lines 48-72).
   Entry point of the spawned worker process: runs the worker loop under
   `uvloop.run`, with `except KeyboardInterrupt: pass` and
   `except Exception as e: logger.exception(...)`.
   ---------------------------------------------------------------- -/

/-- Possible outcomes of `uvloop.run(model_worker_run_v3(...))`, following
Python's exception hierarchy: a normal return, a `KeyboardInterrupt`, an
exception deriving from `Exception`, or a `BaseException` that is neither
an `Exception` nor a `KeyboardInterrupt` (such as `SystemExit`,
`GeneratorExit`, or `asyncio.CancelledError`, a `BaseException` since
Python 3.8). -/
inductive WorkerRunOutcome where
  | normal
  | keyboardInterrupt
  | exceptionRaised (msg : String)
  | baseExceptionRaised (msg : String)
  deriving DecidableEq, Repr

structure ProcessFnResult where
  loggedException : Option String
  deriving DecidableEq, Repr

/-- `_model_worker_process_fn` (the leading underscore is dropped in Lean):
its observable behaviour as a function of the run-loop outcome.  The two
handlers are `except KeyboardInterrupt: pass` and `except Exception as e:
logger.exception(...)`; an `.ok` result is a normal return, while a
`BaseException` that matches neither handler propagates to the caller,
modelled as `.error`. -/
def model_worker_process_fn (o : WorkerRunOutcome) :
    Except String ProcessFnResult :=
  match o with
  | .normal => .ok { loggedException := none }
  | .keyboardInterrupt => .ok { loggedException := none }
  | .exceptionRaised m => .ok { loggedException := some m }
  | .baseExceptionRaised m => .error m

/- ----------------------------------------------------------------
   `model_worker_run_v3` (model_worker.py, lines 184-223).
   Straight-line body: configure metrics, call `model_factory()`,
   construct a scheduler by pipeline kind (raising `ValueError` for an
   invalid kind), `pc.set_started()`, `scheduler.run()`,
   `pc.set_completed()`.  Embedded as a trace-producing function of the
   outcomes of the three fallible stages.
   ---------------------------------------------------------------- -/

/-- What `model_factory()` returned, as the `isinstance` chain classifies it. -/
inductive PipelineKind where
  | tokenGenerator
  | embeddingsGenerator
  /-- neither a `TokenGenerator` nor an `EmbeddingsGenerator` -/
  | invalid
  deriving DecidableEq, Repr

inductive WorkerEvent where
  | modelLoaded
  | schedulerCreated
  | setStarted
  | schedulerRan
  | setCompleted
  deriving DecidableEq, Repr

/-- `model_worker_run_v3`: the ordered trace of lifecycle events and the final
result, as a function of whether `model_factory()` raises (and, on success,
which pipeline kind it returns), whether the `_create_*_scheduler` call
raises, and whether `scheduler.run()` raises. -/
def model_worker_run_v3 (factory : Except String PipelineKind)
    (construct : Except String Unit) (schedulerRun : Except String Unit) :
    List WorkerEvent × Except String Unit :=
  match factory with
  | .error e => ([], .error e)
  | .ok .invalid => ([.modelLoaded], .error "Invalid pipeline type")
  | .ok _ =>
    match construct with
    | .error e => ([.modelLoaded], .error e)
    | .ok _ =>
      match schedulerRun with
      | .error e => ([.modelLoaded, .schedulerCreated, .setStarted], .error e)
      | .ok _ =>
        ([.modelLoaded, .schedulerCreated, .setStarted, .schedulerRan,
          .setCompleted], .ok ())

/- ----------------------------------------------------------------
   `BatchQueueConfig` / `TokenGeneratorPipelineConfig` (llm.py, lines
   39-132).  `BatchQueueConfig` and `BatchingStrategy` are declared in
   `max/serve/scheduler/queues.py`, which is not under src/; their
   fields are modelled from the spec's data model ("strategy, maximum
   batch size, maximum forward steps executed per batch-formation
   cycle, wall-clock timeout before forming a partial batch, optional
   target sum-of-sequence-length token budget") and from the keyword
   arguments the llm.py factory methods pass.  Python ints become
   `Int`, the float timeout becomes `ℚ`, the optional token budget
   becomes `Option Int`.
   ---------------------------------------------------------------- -/

inductive BatchingStrategy where
  | dynamic_immutable
  | dynamic
  | continuous
  deriving DecidableEq, Repr

structure BatchQueueConfig where
  strategy : BatchingStrategy
  size : Int
  timeout : ℚ
  max_forward_steps : Int
  target_sum_seq_len : Option Int
  deriving DecidableEq, Repr

structure TokenGeneratorPipelineConfig where
  token_generation : BatchQueueConfig
  context_encoding : Option BatchQueueConfig
  deriving DecidableEq, Repr

/-- `TokenGeneratorPipelineConfig.dynamic_homogenous` (llm.py, lines 63-78):
a single immutable-dynamic queue; `target_sum_seq_len` is left at its
unset default. -/
def TokenGeneratorPipelineConfig.dynamic_homogenous (batch_size : Int)
    (batch_timeout : ℚ) (max_forward_steps : Int) :
    TokenGeneratorPipelineConfig :=
  { token_generation :=
      { strategy := .dynamic_immutable
        size := batch_size
        timeout := batch_timeout
        max_forward_steps := max_forward_steps
        target_sum_seq_len := none }
    context_encoding := none }

/-- `TokenGeneratorPipelineConfig.continuous_heterogenous` (llm.py, lines
80-109): a continuous token-generation queue with `timeout=0.0` plus a
dynamic context-encoding queue with the token budget; context-encoding
leaves `max_forward_steps` at its default (modelled as 1, the default
the spec's per-cycle execution implies). -/
def TokenGeneratorPipelineConfig.continuous_heterogenous
    (tg_batch_size ce_batch_size : Int) (ce_batch_timeout : ℚ)
    (max_forward_steps target_ce_batch_tokens : Int) :
    TokenGeneratorPipelineConfig :=
  { token_generation :=
      { strategy := .continuous
        size := tg_batch_size
        timeout := 0
        max_forward_steps := max_forward_steps
        target_sum_seq_len := none }
    context_encoding := some
      { strategy := .dynamic
        size := ce_batch_size
        timeout := ce_batch_timeout
        max_forward_steps := 1
        target_sum_seq_len := some target_ce_batch_tokens } }

/-- `TokenGeneratorPipelineConfig.paged` (llm.py, lines 111-132): the source
delegates unchanged to `continuous_heterogenous` ("This config is identical
to the config returned by continuous_heterogenous."). -/
def TokenGeneratorPipelineConfig.paged (tg_batch_size ce_batch_size : Int)
    (ce_batch_timeout : ℚ) (max_forward_steps target_ce_batch_tokens : Int) :
    TokenGeneratorPipelineConfig :=
  TokenGeneratorPipelineConfig.continuous_heterogenous tg_batch_size
    ce_batch_size ce_batch_timeout max_forward_steps target_ce_batch_tokens

/-- The spec's data-model invariant on a `BatchQueueConfig`:
"size ≥ 1; timeout ≥ 0; target token budget, if set, must be ≥ size". -/
def BatchQueueConfig.invariantOK (c : BatchQueueConfig) : Bool :=
  decide (1 ≤ c.size) && decide (0 ≤ c.timeout) &&
    (match c.target_sum_seq_len with
     | none => true
     | some t => decide (c.size ≤ t))

/-- The invariant applied to every `BatchQueueConfig` a pipeline
configuration holds. -/
def TokenGeneratorPipelineConfig.invariantOK
    (cfg : TokenGeneratorPipelineConfig) : Bool :=
  cfg.token_generation.invariantOK &&
    (match cfg.context_encoding with
     | none => true
     | some c => c.invariantOK)

end MaxServe

namespace MaxGraph

/- ----------------------------------------------------------------
   `masked_scatter` (max/graph/ops/scatter.py, lines 21-67).
   Symbolic tensors are modelled by their graph-construction-time
   attributes: dtype and shape.  The function promotes the mask to a
   strong bool tensor, raises `ValueError` when input and updates
   dtypes differ, computes `input_size`/`updates_size` (the equality
   check between them is commented out in the source, marked
   "TODO: This is a bug. They don't have to match."), broadcasts the
   mask to the input shape, and emits an `rmo.mo_scatter_nd` op whose
   result has the input's dtype and shape.
   ---------------------------------------------------------------- -/

inductive DType where
  | bool
  | int32
  | int64
  | float32
  | bfloat16
  deriving DecidableEq, Repr

structure TensorValue where
  dtype : DType
  shape : List Nat
  deriving DecidableEq, Repr

/-- `reduce(mul, shape, 1)`: the element count the source computes for
`input_size` and `updates_size`. -/
def TensorValue.numel (t : TensorValue) : Nat :=
  t.shape.foldl (· * ·) 1

/-- Numpy-style broadcastability of shape `src` to shape `tgt`, as
`mask.broadcast_to(input.shape)` requires: align from the right, each
source dimension must equal the target dimension or be 1. -/
def broadcastableTo (src tgt : List Nat) : Bool :=
  decide (src.length ≤ tgt.length) &&
    (List.zip src.reverse tgt.reverse).all fun p => p.1 == p.2 || p.1 == 1

/-- `masked_scatter`.  `dtype_promotion._promote_to_strong(mask, DType.bool)`
lives in a module not under src/; it is modelled as requiring a bool mask.
The commented-out size check of lines 46-52 is deliberately absent: no
branch inspects `numel`. -/
def masked_scatter (input mask updates : TensorValue) :
    Except String TensorValue :=
  if mask.dtype ≠ DType.bool then
    .error "mask must be a boolean tensor"
  else if input.dtype ≠ updates.dtype then
    .error "The input dtype and updates dtype must match"
  else if ¬ broadcastableTo mask.shape input.shape then
    .error "mask is not broadcastable to the input shape"
  else
    .ok { dtype := input.dtype, shape := input.shape }

end MaxGraph

namespace MaxServe

/- ----------------------------------------------------------------
   `TokenGeneratorPipeline.next_token` (llm.py, lines 164-219).
   Per response from `engine_queue.stream`, the pipeline decodes every
   top-log-probability candidate token and then the emitted token, each
   time passing `skip_special_tokens=skip_special_tokens` where
   `skip_special_tokens = tool_use = request.tools is not None`.
   The embedding records the sequence of decode calls.
   ---------------------------------------------------------------- -/

structure LogProbabilities where
  token_log_probabilities : List ℚ
  /-- `top_log_probabilities`: one candidate map per position, each a list
  of (token id, log probability) pairs -/
  top_log_probabilities : List (List (Nat × ℚ))
  deriving DecidableEq, Repr

structure TokenResponse where
  next_token : Nat
  log_probabilities : Option LogProbabilities
  deriving DecidableEq, Repr

structure TokenGeneratorRequest where
  id : String
  index : Nat
  /-- the optional tool/function schema; only its presence matters here -/
  tools : Option (List String)
  deriving DecidableEq, Repr

structure DecodeCall where
  token_id : Nat
  skip_special_tokens : Bool
  deriving DecidableEq, Repr

/-- The decode calls of the inner loops `for top_log_probs in
log_prob.top_log_probabilities: for token_id, value in
top_log_probs.items(): ... tokenizer.decode(context, token_id, ...)`:
one call per candidate token, in iteration order. -/
def topCalls (skip : Bool) : List (List (Nat × ℚ)) → List DecodeCall
  | [] => []
  | top :: rest =>
    top.map (fun p => { token_id := p.1, skip_special_tokens := skip }) ++
      topCalls skip rest

/-- The decode calls one response contributes: one per candidate token in
each top-log-probability map, then one for the emitted `next_token`. -/
def decodeCallsOfResponse (skip : Bool) (r : TokenResponse) : List DecodeCall :=
  (match r.log_probabilities with
   | none => []
   | some lp => topCalls skip lp.top_log_probabilities) ++
  [{ token_id := r.next_token, skip_special_tokens := skip }]

/-- The full sequence of `tokenizer.decode` calls `next_token` makes while
streaming `responses` for `request`, in order.  `skip` is computed once,
as in the source: `tool_use = request.tools is not None;
skip_special_tokens = tool_use`. -/
def next_token_decode_calls (request : TokenGeneratorRequest) :
    List TokenResponse → List DecodeCall
  | [] => []
  | r :: rs =>
    decodeCallsOfResponse request.tools.isSome r ++
      next_token_decode_calls request rs

/- ----------------------------------------------------------------
   EngineQueue cancellation (spec-modelled).
   ---------------------------------------------------------------- -/

/-- Modelled from the spec: the EngineQueue's effective handling of one
cancel message.  The EngineQueue lives in `max/serve/scheduler/queues.py`,
which is not under src/.  Spec: "`cancel(request_id)`: writes a cancel
message; safe to call multiple times or after completion (no-op)", and
routing-table entries "are inserted on submission and removed exactly
once, either on terminal response or on explicit cancellation
acknowledgement — never both".  `applyCancel` applies one cancel message
for `id` to the routing table: it removes the id's sink when registered
(the single cleanup) and otherwise changes nothing; it never raises.
The returned Bool records whether a cleanup was performed. -/
def applyCancel (routing : List String) (id : String) :
    List String × Bool :=
  if id ∈ routing then (routing.erase id, true) else (routing, false)

/- ----------------------------------------------------------------
   Immutable-dynamic batch formation (spec-modelled).
   ---------------------------------------------------------------- -/

/-- Modelled from the spec: the immutable-dynamic batch-formation loop of
the worker-side batch scheduler (`TokenGenerationSchedulerV2` in
`max/serve/pipelines/scheduler_v2.py`, which is not under src/).
Spec §4.4: "accumulate pending requests until `size` is reached or
`timeout` elapses (whichever first; a zero timeout with fewer than `size`
pending still waits for the timeout to elapse exactly once, not poll
indefinitely), form a fixed batch".  Time is discrete: each recursive
step performs one bounded wait on the request channel, `arrivals w` are
the requests that arrive during the w-th wait, and `remaining` is the
number of further waits the timeout still allows.  The result is the
formed batch together with the number of waits performed. -/
def formBatchGo (size : Nat) (arrivals : Nat → List String) :
    Nat → Nat → List String → List String × Nat
  | remaining, w, acc =>
    let acc' := acc ++ arrivals w
    if size ≤ acc'.length then (acc', w + 1)
    else
      match remaining with
      | 0 => (acc', w + 1)
      | r + 1 => formBatchGo size arrivals r (w + 1) acc'

/-- Batch formation starting from the already-pending requests, with a
timeout of `timeoutTicks` further waits beyond the first. -/
def formImmutableBatch (size timeoutTicks : Nat) (pending : List String)
    (arrivals : Nat → List String) : List String × Nat :=
  formBatchGo size arrivals timeoutTicks 0 pending

end MaxServe

/-! ## Theorems -/

namespace MaxServe

/-- Claim C1: for every invocation of `start_model_worker`, only
alive-and-healthy yields a usable engine queue; when neither the
became-healthy nor the became-dead wait resolves within `2 * timeout_secs`
it raises the startup-timeout error ("Worker is neither dead nor
healthy"); when the process is found not alive the monitor is shut down
and the raised error distinguishes "became healthy and died" from
"died" by `pc.is_healthy()`; when the process is alive but never became
healthy it raises the fatal "did not become healthy" timeout, after
shutting the monitor down. -/
theorem start_model_worker_startup_race :
    ∀ htDone dtDone workerAlive pcHealthy : Bool,
      ((start_model_worker_decide htDone dtDone workerAlive pcHealthy).outcome
          = .success ↔
        workerAlive = true ∧ pcHealthy = true ∧
          (htDone = true ∨ dtDone = true)) ∧
      ((start_model_worker_decide htDone dtDone workerAlive pcHealthy).outcome
          = .neitherDeadNorHealthy ↔ htDone = false ∧ dtDone = false) ∧
      ((htDone = true ∨ dtDone = true) → workerAlive = false →
        (start_model_worker_decide htDone dtDone workerAlive
            pcHealthy).monitorShutdown = true ∧
        (start_model_worker_decide htDone dtDone workerAlive
            pcHealthy).outcome =
          (if pcHealthy then .becameHealthyAndDied else .died)) ∧
      ((htDone = true ∨ dtDone = true) → workerAlive = true →
          pcHealthy = false →
        (start_model_worker_decide htDone dtDone workerAlive
            pcHealthy).outcome = .didNotBecomeHealthy ∧
        (start_model_worker_decide htDone dtDone workerAlive
            pcHealthy).monitorShutdown = true) := by
  decide

/-- Concrete instance of `start_model_worker_startup_race`: the healthy
wait resolved, the worker is found dead without having been healthy, and
the monitor is shut down. -/
theorem start_model_worker_startup_race_witness :
    (true = true ∨ false = true) ∧
      (start_model_worker_decide true false false false).monitorShutdown
        = true :=
  ⟨Or.inl rfl,
    ((start_model_worker_startup_race true false false false).2.2.1
        (Or.inl rfl) rfl).1⟩

/-- Claim C2: whenever a background task of `TokenGeneratorPipeline`
finishes, every sibling task that is not yet done receives a cancel
request, and SIGTERM is sent to the own process exactly when the task
exited with an unhandled error — a cancelled task cancels its siblings
but issues no termination request. -/
theorem log_task_done_fail_fast :
    ∀ (siblings : List BgTask) (e : TaskExit),
      (∀ t ∈ (log_task_done siblings e).siblings,
          t.done = false → t.cancelRequested = true) ∧
      ((log_task_done siblings e).sigtermIssued = true ↔
        ∃ m, e = TaskExit.errored m) := by
  intro siblings e
  constructor
  · intro t ht hd
    have hmem : t ∈ siblings.map fun s =>
        if s.done then s else { s with cancelRequested := true } := by
      cases e <;> simpa [log_task_done] using ht
    rcases List.mem_map.mp hmem with ⟨s, -, rfl⟩
    by_cases h : s.done
    · rw [if_pos h] at hd
      exact absurd h (by simp [hd])
    · simp [h]
  · cases e <;> simp [log_task_done]

/-- Concrete instance of `log_task_done_fail_fast`: the one remaining
not-done sibling of a cancelled task is cancel-requested. -/
theorem log_task_done_fail_fast_witness :
    ((⟨false, true⟩ : BgTask) ∈
        (log_task_done [⟨false, false⟩] TaskExit.cancelled).siblings ∧
      (⟨false, true⟩ : BgTask).done = false) ∧
    (⟨false, true⟩ : BgTask).cancelRequested = true :=
  ⟨⟨by decide, rfl⟩,
    (log_task_done_fail_fast [⟨false, false⟩] TaskExit.cancelled).1
      ⟨false, true⟩ (by decide) rfl⟩

/-- Claim C10, counterexample: a `SystemExit` escaping the run loop
matches neither `except KeyboardInterrupt` nor `except Exception`, so
`_model_worker_process_fn` propagates it to its caller instead of
returning normally. -/
theorem model_worker_process_fn_counterexample :
    model_worker_process_fn (.baseExceptionRaised "SystemExit") =
      .error "SystemExit" := by
  rfl

/-- Claim C10, amended: `_model_worker_process_fn` returns normally
exactly when the run loop returns, raises `KeyboardInterrupt` (swallowed
silently, nothing logged), or raises an `Exception` (caught and logged);
a `BaseException` outside those two handlers propagates unchanged. -/
theorem model_worker_process_fn_handlers :
    ∀ o : WorkerRunOutcome,
      ((∃ r, model_worker_process_fn o = .ok r) ↔
        o = .normal ∨ o = .keyboardInterrupt ∨
          ∃ m, o = .exceptionRaised m) ∧
      (model_worker_process_fn o = .ok { loggedException := none } ↔
        o = .normal ∨ o = .keyboardInterrupt) ∧
      (∀ m, model_worker_process_fn o = .error m ↔
        o = .baseExceptionRaised m) := by
  intro o
  cases o <;> simp [model_worker_process_fn]

/-- Claim C5: `TokenGeneratorPipelineConfig.paged` produces exactly the
configuration `TokenGeneratorPipelineConfig.continuous_heterogenous`
produces for the same arguments. -/
theorem paged_eq_continuous_heterogenous :
    ∀ (tg_batch_size ce_batch_size : Int) (ce_batch_timeout : ℚ)
      (max_forward_steps target_ce_batch_tokens : Int),
      TokenGeneratorPipelineConfig.paged tg_batch_size ce_batch_size
          ce_batch_timeout max_forward_steps target_ce_batch_tokens =
        TokenGeneratorPipelineConfig.continuous_heterogenous tg_batch_size
          ce_batch_size ce_batch_timeout max_forward_steps
          target_ce_batch_tokens := by
  intro _ _ _ _ _
  rfl

/-- Claim C6: in `model_worker_run_v3`, `pc.set_started()` is reached
exactly when the model factory returned a valid pipeline and the
scheduler was constructed; `pc.set_completed()` is reached exactly when
additionally `scheduler.run()` returned; and every trace is an ordered
subsequence of load → construct → set-started → run → set-completed. -/
theorem model_worker_run_v3_lifecycle :
    ∀ (factory : Except String PipelineKind)
      (construct schedulerRun : Except String Unit),
      (WorkerEvent.setStarted ∈
          (model_worker_run_v3 factory construct schedulerRun).1 ↔
        (∃ k, factory = .ok k ∧ k ≠ PipelineKind.invalid) ∧
          construct = .ok ()) ∧
      (WorkerEvent.setCompleted ∈
          (model_worker_run_v3 factory construct schedulerRun).1 ↔
        (∃ k, factory = .ok k ∧ k ≠ PipelineKind.invalid) ∧
          construct = .ok () ∧ schedulerRun = .ok ()) ∧
      List.Sublist (model_worker_run_v3 factory construct schedulerRun).1
        [WorkerEvent.modelLoaded, WorkerEvent.schedulerCreated,
         WorkerEvent.setStarted, WorkerEvent.schedulerRan,
         WorkerEvent.setCompleted] := by
  intro factory construct schedulerRun
  rcases factory with e | k
  · simp [model_worker_run_v3]
  · rcases construct with e1 | ⟨⟩ <;> rcases schedulerRun with e2 | ⟨⟩ <;>
      cases k <;> simp [model_worker_run_v3]

end MaxServe

namespace MaxServe

/-- Claim C7, counterexample: the factory methods validate nothing, so
`dynamic_homogenous` with `batch_size = 0` produces a configuration with
`size = 0`, violating the data-model invariant `size ≥ 1`. -/
theorem factory_invariant_counterexample :
    (TokenGeneratorPipelineConfig.dynamic_homogenous 0 (1/10)
        1).invariantOK = false := by
  decide

/-- Claim C7, amended: every configuration the factory methods
`dynamic_homogenous`, `continuous_heterogenous` and `paged` produce
satisfies the data-model invariant provided the arguments themselves
respect it: batch sizes at least 1, timeouts nonnegative, and the
context-encoding token budget at least the context-encoding batch size. -/
theorem factory_configs_satisfy_invariant :
    ∀ (batch_size tg ce : Int) (bt ct : ℚ) (mf mf2 tok : Int),
      (1 ≤ batch_size → 0 ≤ bt →
        (TokenGeneratorPipelineConfig.dynamic_homogenous batch_size bt
            mf).invariantOK = true) ∧
      (1 ≤ tg → 1 ≤ ce → 0 ≤ ct → ce ≤ tok →
        (TokenGeneratorPipelineConfig.continuous_heterogenous tg ce ct mf2
            tok).invariantOK = true) ∧
      (1 ≤ tg → 1 ≤ ce → 0 ≤ ct → ce ≤ tok →
        (TokenGeneratorPipelineConfig.paged tg ce ct mf2
            tok).invariantOK = true) := by
  intro batch_size tg ce bt ct mf mf2 tok
  refine ⟨fun h1 h2 => ?_, fun h1 h2 h3 h4 => ?_, fun h1 h2 h3 h4 => ?_⟩ <;>
    simp only [TokenGeneratorPipelineConfig.dynamic_homogenous,
      TokenGeneratorPipelineConfig.paged,
      TokenGeneratorPipelineConfig.continuous_heterogenous,
      TokenGeneratorPipelineConfig.invariantOK,
      BatchQueueConfig.invariantOK, Bool.and_eq_true, decide_eq_true_eq] <;>
    refine ⟨⟨⟨h1, ?_⟩, ?_⟩, ?_⟩ <;>
    simp_all

/-- Concrete instance of `factory_configs_satisfy_invariant`:
`dynamic_homogenous 1 0 1` satisfies the invariant. -/
theorem factory_configs_satisfy_invariant_witness :
    ((1 : Int) ≤ 1 ∧ (0 : ℚ) ≤ 0) ∧
    (TokenGeneratorPipelineConfig.dynamic_homogenous 1 0 1).invariantOK
      = true :=
  ⟨⟨le_refl 1, le_refl 0⟩,
    (factory_configs_satisfy_invariant 1 1 1 0 0 1 1 1).1 (le_refl 1)
      (le_refl 0)⟩

end MaxServe

namespace MaxGraph

/-- Claim C8: `masked_scatter` raises the dtype `ValueError` whenever the
input and updates dtypes differ, and with matching dtypes (and a bool
mask broadcastable to the input shape) it constructs the op without
raising, even when the element counts of updates and input differ — the
size-equality check is absent. -/
theorem masked_scatter_no_size_check :
    ∀ input mask updates : TensorValue,
      (mask.dtype = DType.bool → input.dtype ≠ updates.dtype →
        masked_scatter input mask updates =
          .error "The input dtype and updates dtype must match") ∧
      (mask.dtype = DType.bool → input.dtype = updates.dtype →
        broadcastableTo mask.shape input.shape = true →
        updates.numel ≠ input.numel →
        masked_scatter input mask updates =
          .ok { dtype := input.dtype, shape := input.shape }) := by
  intro input mask updates
  constructor
  · intro hm hne
    simp [masked_scatter, hm, hne]
  · intro hm he hb _
    simp [masked_scatter, hm, he, hb]

/-- Concrete instance of `masked_scatter_no_size_check`: a 4-element
input with a 3-element updates tensor constructs without raising. -/
theorem masked_scatter_no_size_check_witness :
    ((TensorValue.mk DType.bool [2, 2]).dtype = DType.bool ∧
      TensorValue.numel ⟨DType.float32, [3]⟩ ≠
        TensorValue.numel ⟨DType.float32, [2, 2]⟩) ∧
    masked_scatter ⟨DType.float32, [2, 2]⟩ ⟨DType.bool, [2, 2]⟩
        ⟨DType.float32, [3]⟩ =
      .ok ⟨DType.float32, [2, 2]⟩ :=
  ⟨⟨rfl, by decide⟩,
    (masked_scatter_no_size_check ⟨DType.float32, [2, 2]⟩
        ⟨DType.bool, [2, 2]⟩ ⟨DType.float32, [3]⟩).2 rfl rfl (by decide)
      (by decide)⟩

end MaxGraph

namespace MaxServe

/-- Every decode call `topCalls` produces carries the given skip flag. -/
theorem topCalls_skip (skip : Bool) :
    ∀ l : List (List (Nat × ℚ)), ∀ c ∈ topCalls skip l,
      c.skip_special_tokens = skip := by
  intro l
  induction l with
  | nil => intro c hc; simp [topCalls] at hc
  | cons top rest ih =>
    intro c hc
    simp only [topCalls] at hc
    rcases List.mem_append.mp hc with h | h
    · rcases List.mem_map.mp h with ⟨p, -, rfl⟩
      rfl
    · exact ih c h

/-- Claim C9: every `tokenizer.decode` call `next_token` makes — for the
emitted token of each response and for each top-log-probability
candidate — passes `skip_special_tokens` true exactly when the request
carries a tool schema (`request.tools is not None`). -/
theorem next_token_skip_special_tokens :
    ∀ (request : TokenGeneratorRequest) (responses : List TokenResponse),
      ∀ c ∈ next_token_decode_calls request responses,
        c.skip_special_tokens = request.tools.isSome := by
  intro request responses
  induction responses with
  | nil => intro c hc; simp [next_token_decode_calls] at hc
  | cons r rs ih =>
    intro c hc
    simp only [next_token_decode_calls] at hc
    rcases List.mem_append.mp hc with h | h
    · simp only [decodeCallsOfResponse] at h
      rcases List.mem_append.mp h with h2 | h2
      · cases hlp : r.log_probabilities with
        | none => rw [hlp] at h2; simp at h2
        | some lp =>
          rw [hlp] at h2
          exact topCalls_skip request.tools.isSome
            lp.top_log_probabilities c h2
      · rw [List.mem_singleton] at h2
        subst h2
        rfl
    · exact ih c h

/-- Concrete instance of `next_token_skip_special_tokens`: a request
without tools never skips special tokens in any decode call. -/
theorem next_token_skip_special_tokens_witness :
    ((⟨5, false⟩ : DecodeCall) ∈
      next_token_decode_calls ⟨"req-0", 0, none⟩ [⟨5, none⟩]) ∧
    (DecodeCall.mk 5 false).skip_special_tokens =
      (Option.none (α := List String)).isSome :=
  ⟨by decide,
    next_token_skip_special_tokens ⟨"req-0", 0, none⟩ [⟨5, none⟩]
      ⟨5, false⟩ (by decide)⟩

/-- Claim C3: applying a cancel message is idempotent — against a
routing table with at most one sink per identifier, a second cancel for
the same identifier changes nothing and performs no further cleanup,
and a cancel after the identifier has already been removed (terminal
response observed) is a no-op. -/
theorem applyCancel_idempotent :
    ∀ (routing : List String) (id : String), routing.Nodup →
      applyCancel (applyCancel routing id).1 id =
        ((applyCancel routing id).1, false) ∧
      (id ∉ routing → applyCancel routing id = (routing, false)) := by
  intro routing id hnd
  constructor
  · by_cases h : id ∈ routing
    · have herase : id ∉ routing.erase id := fun hmem =>
        absurd rfl ((List.Nodup.mem_erase_iff hnd).mp hmem).1
      simp [applyCancel, h, herase]
    · simp [applyCancel, h]
  · intro h
    simp [applyCancel, h]

/-- Concrete instance of `applyCancel_idempotent`: cancelling "a" twice
in the table ["a", "b"] leaves the table of the first cancel unchanged
and performs no second cleanup. -/
theorem applyCancel_idempotent_witness :
    (["a", "b"] : List String).Nodup ∧
    applyCancel (applyCancel ["a", "b"] "a").1 "a" =
      ((applyCancel ["a", "b"] "a").1, false) :=
  ⟨by decide, (applyCancel_idempotent ["a", "b"] "a" (by decide)).1⟩

/-- Claim C4: with a zero batch-formation timeout and fewer than `size`
requests pending, the immutable-dynamic scheduler performs exactly one
timeout-bounded wait and then forms the batch from everything pending —
it does not poll indefinitely for more members. -/
theorem formImmutableBatch_zero_timeout :
    ∀ (size : Nat) (pending : List String) (arrivals : Nat → List String),
      pending.length < size →
      (formImmutableBatch size 0 pending arrivals).2 = 1 ∧
      (formImmutableBatch size 0 pending arrivals).1 =
        pending ++ arrivals 0 := by
  intro size pending arrivals _h
  unfold formImmutableBatch formBatchGo
  by_cases h : size ≤ (pending ++ arrivals 0).length
  · simp [h]
  · simp [h]

/-- Concrete instance of `formImmutableBatch_zero_timeout`: one pending
request, batch size 2, zero timeout — one wait, then the batch forms. -/
theorem formImmutableBatch_zero_timeout_witness :
    (["r1"] : List String).length < 2 ∧
    (formImmutableBatch 2 0 ["r1"] fun _ => []).2 = 1 :=
  ⟨by decide,
    (formImmutableBatch_zero_timeout 2 ["r1"] (fun _ => []) (by decide)).1⟩

end MaxServe
